import Mathlib

/-
Verification of the IRLS/GLM engine in scikits/statsmodels/glm.py.

The fitting engine (GLM.fit, GLM.estimate_scale, GLM.initialize, GLM.predict,
the iteration history and the per-call mutations of the model object) is
embedded as an executable state-passing program over the rationals, with a
small inductive surrogate FVal for the IEEE special values (plus and minus
infinity, NaN) that the source manipulates through numpy (the +inf history
sentinel, the np.isnan guard on the first deviance, the fabs comparison in
the while condition).

The families module, the WLS solver, numpy.linalg.pinv and tools.rank are
external collaborators of glm.py (they are imported, not defined, in the
source file); they enter the embedding as abstract parameters, except where
a concrete behaviour of Binomial.initialize is needed, which is modelled
from the spec.

The diagnostic formulas of GLMResults (resid_response, resid_pearson,
pearson_chi2, aic, bic) are analytic identities over real numbers and are
embedded separately over the reals.
-/

namespace GLMSpec

/-- IEEE-style float surrogate for the special values the source relies on:
a finite rational, plus infinity (the history sentinel), minus infinity and
NaN (checked by np.isnan after the first deviance evaluation). -/
inductive FVal : Type where
  | fin (x : ℚ)
  | pinf
  | ninf
  | nan
deriving DecidableEq

/-- Subtraction on the float surrogate, following IEEE conventions: any
operation with NaN gives NaN and inf minus inf gives NaN. -/
def FVal.sub : FVal → FVal → FVal
  | .nan, _ => .nan
  | _, .nan => .nan
  | .fin x, .fin y => .fin (x - y)
  | .fin _, .pinf => .ninf
  | .fin _, .ninf => .pinf
  | .pinf, .fin _ => .pinf
  | .pinf, .pinf => .nan
  | .pinf, .ninf => .pinf
  | .ninf, .fin _ => .ninf
  | .ninf, .pinf => .ninf
  | .ninf, .ninf => .nan

/-- Absolute value on the float surrogate (np.fabs). -/
def FVal.fabs : FVal → FVal
  | .fin x => .fin |x|
  | .pinf => .pinf
  | .ninf => .pinf
  | .nan => .nan

/-- NaN test on the float surrogate (np.isnan). -/
def FVal.isnan : FVal → Bool
  | .nan => true
  | _ => false

/-- Comparison of a float surrogate against a rational threshold; NaN
compares false against everything, as in IEEE arithmetic. -/
def FVal.gtQ : FVal → ℚ → Bool
  | .fin x, t => decide (t < x)
  | .pinf, _ => true
  | .ninf, _ => false
  | .nan, _ => false

/-- Division of a float surrogate by a rational scalar (used by the dev
scale estimate, deviance divided by df_resid). -/
def FVal.divQ : FVal → ℚ → FVal
  | .fin x, q => .fin (x / q)
  | .pinf, q => if q < 0 then .ninf else .pinf
  | .ninf, q => if q < 0 then .pinf else .ninf
  | .nan, _ => .nan

/-- The endogenous data of a model: either a one dimensional response
vector, or, for the Binomial family, an n by 2 matrix of successes and
failures pairs. -/
inductive Endog (n : ℕ) : Type where
  | vec (y : Fin n → ℚ)
  | mat (sf : Fin n → ℚ × ℚ)

/-- Shape test for the endogenous data: true when it is the n by 2
successes and failures form. -/
def Endog.isMat {n : ℕ} : Endog n → Bool
  | .vec _ => false
  | .mat _ => true

/-- View of the endogenous data as a numeric vector, as the arithmetic in
glm.py (endog minus mu) consumes it.  After Binomial preprocessing the data
is always in vector form; the first component is used as a junk value for
the unreachable matrix case. -/
def Endog.asVec {n : ℕ} : Endog n → Fin n → ℚ
  | .vec y => fun i => y i
  | .mat sf => fun i => (sf i).1

/-- Modelled from the spec: the families module
(scikits.statsmodels.families) is imported by glm.py but is not part of the
source file, so a family is embedded as the abstract bundle of callbacks
that glm.py consumes: the Binomial and Poisson isinstance flags used by
estimate_scale, the Binomial endog preprocessing, the starting mean, the
link transform pair and its derivative (applied elementwise), the variance
function (applied elementwise), the deviance statistic and the IRLS weight
map. -/
structure Family : Type where
  isBinomial : Bool
  isPoisson : Bool
  initializeEndog : {n : ℕ} → Endog n → Endog n
  starting_mu : {n : ℕ} → Endog n → Fin n → ℚ
  linkFun : ℚ → ℚ
  linkInv : ℚ → ℚ
  linkDeriv : ℚ → ℚ
  varianceFun : ℚ → ℚ
  devianceFun : {n : ℕ} → Endog n → (Fin n → ℚ) → FVal
  weightsFun : ℚ → ℚ

/-- Modelled from the spec: Binomial.initialize collapses an n by 2 matrix
of successes and failures to the proportion vector successes divided by
trials, and leaves an already one dimensional endog unchanged. -/
def binomialInitialize {n : ℕ} : Endog n → Endog n
  | .vec y => .vec y
  | .mat sf => .vec (fun i => (sf i).1 / ((sf i).1 + (sf i).2))

/-- The data_weights argument of fit: a python scalar or a per observation
vector (np.shape distinguishes them as () versus (n,)). -/
inductive DW (n : ℕ) : Type where
  | scalar (w : ℚ)
  | vector (w : Fin n → ℚ)

/-- Scalar test on data weights (np.shape(w) == ()). -/
def DW.isScalar {n : ℕ} : DW n → Bool
  | .scalar _ => true
  | .vector _ => false

/-- The source quirk at line 375: a scalar data weight strictly greater
than one is broadcast to a constant per observation vector; a scalar less
than or equal to one is left scalar. -/
def DW.broadcast {n : ℕ} : DW n → DW n
  | .scalar w => if 1 < w then .vector (fun _ => w) else .scalar w
  | .vector v => .vector v

/-- Elementwise product of data weights with a vector
(data_weights * family.weights(mu) at line 397). -/
def DW.mulVec {n : ℕ} : DW n → (Fin n → ℚ) → Fin n → ℚ
  | .scalar w, v => fun i => w * v i
  | .vector u, v => fun i => u i * v i

/-- The scale argument of fit, stored as self.scaletype: python None, a
float, a string, or any other object (the final else branch of
estimate_scale). -/
inductive ScaleType : Type where
  | none
  | float (f : ℚ)
  | str (s : String)
  | other
deriving DecidableEq

/-- Python truthiness of the scaletype value, as tested by the
(if not self.scaletype) guard at line 284: None, the float 0.0 and the
empty string are falsy. -/
def ScaleType.falsy : ScaleType → Bool
  | .none => true
  | .float f => decide (f = 0)
  | .str s => s.isEmpty
  | .other => false

/-- Result record of the external weighted least squares solver
(regression.WLS(...).fit()): coefficients, fitted values and normalized
covariance. -/
structure WLSResult (n p : ℕ) : Type where
  params : Fin p → ℚ
  fittedvalues : Fin n → ℚ
  normalized_cov_params : Fin p → Fin p → ℚ

/-- The external WLS solver consumed by the IRLS loop: it receives the
working response, the design matrix and the weights. -/
abbrev WLSSolver (n p : ℕ) : Type :=
  (Fin n → ℚ) → (Fin n → Fin p → ℚ) → (Fin n → ℚ) → WLSResult n p

/-- The failure modes of the embedded engine, one constructor per raise
site of the source (plus the unbound local read that ends fit when the
loop body never executed). -/
inductive GLMError : Type where
  | dataWeightsNonBinomial
  | nanDeviance
  | scaleNotUnderstood
  | unboundLocal
  | predictNoParams
deriving DecidableEq

/-- Entry of the params history: the scalar +inf sentinel installed by
initialize, or a coefficient vector appended by _update_history. -/
inductive PEntry (p : ℕ) : Type where
  | inf
  | vec (v : Fin p → ℚ)

/-- The immutable snapshot constructed by GLMResults from a fit
(the state GLMResults.__init__ copies out of the model at lines 539-554). -/
structure GLMResultsSnap (n p : ℕ) : Type where
  params : Fin p → ℚ
  normalized_cov_params : Fin p → Fin p → ℚ
  scale : FVal
  family : Family
  endog : Endog n
  nobs : ℕ
  mu : Fin n → ℚ
  data_weights : DW n
  df_resid : ℤ
  df_model : ℤ
  pinv_wexog : Fin p → Fin n → ℚ

/-- The mutable attribute state of a GLM model object.  The fields mirror
the attributes glm.py assigns: the data references, the family, the stored
(possibly broadcast) data weights, the scaletype, the three history lists,
the iteration counter, and the attributes that only exist after parts of a
fit have run (weights, scale, mu, the results back reference). -/
structure GLMState (n p : ℕ) : Type where
  endog : Endog n
  exog : Fin n → Fin p → ℚ
  family : Family
  data_weights : DW n
  scaletype : ScaleType
  histDeviance : List FVal
  histParams : List (PEntry p)
  histFitted : List (Fin n → ℚ)
  iteration : ℕ
  weights : Option (Fin n → ℚ)
  scale : Option FVal
  mu : Option (Fin n → ℚ)
  results : Option (GLMResultsSnap n p)
  pinv_wexog : Fin p → Fin n → ℚ
  normalized_cov_params : Fin p → Fin p → ℚ
  df_model : ℤ
  df_resid : ℤ

namespace GLM

/-- GLM.initialize (source lines 217-229): reset the history to the +inf
sentinels, zero the iteration counter, and recompute the pseudoinverse,
normalized covariance and degrees of freedom.  The pseudoinverse
(np.linalg.pinv) and the matrix rank (tools.rank) are external utilities
and enter as parameters. -/
def initializeModel {n p : ℕ} (pinvExog : Fin p → Fin n → ℚ) (rankExog : ℕ)
    (st : GLMState n p) : GLMState n p :=
  { st with
      histFitted := []
      histParams := [PEntry.inf]
      histDeviance := [FVal.pinf]
      iteration := 0
      pinv_wexog := pinvExog
      normalized_cov_params := fun i j => ∑ k, pinvExog i k * pinvExog j k
      df_model := (rankExog : ℤ) - 1
      df_resid := (n : ℤ) - (rankExog : ℤ) }

/-- GLM.__init__ (source lines 203-214): store the data and the family and
run initialize.  The endog versus exog length check of the source is
enforced here by the shared dimension index n. -/
def make {n p : ℕ} (endog : Endog n) (exog : Fin n → Fin p → ℚ) (family : Family)
    (pinvExog : Fin p → Fin n → ℚ) (rankExog : ℕ) : GLMState n p :=
  initializeModel pinvExog rankExog
    { endog := endog
      exog := exog
      family := family
      data_weights := DW.scalar 1
      scaletype := ScaleType.none
      histDeviance := []
      histParams := []
      histFitted := []
      iteration := 0
      weights := Option.none
      scale := Option.none
      mu := Option.none
      results := Option.none
      pinv_wexog := pinvExog
      normalized_cov_params := fun _ _ => 0
      df_model := 0
      df_resid := 0 }

/-- Pearson chi square based scale estimate of the source (lines 288-290
and 296-299): the sum of squared residuals over the variance at mu,
divided by df_resid.  Rational division is total, so the df_resid = 0
corner returns 0 where numpy would emit a warning value. -/
def pearsonScale {n p : ℕ} (st : GLMState n p) (mu : Fin n → ℚ) : ℚ :=
  (∑ i, (st.endog.asVec i - mu i) ^ 2 / st.family.varianceFun (mu i)) / (st.df_resid : ℚ)

/-- String token compared against scaletype for the Pearson option. -/
def tokX2 : String := "x2"

/-- String token compared against scaletype for the deviance option. -/
def tokDev : String := "dev"

/-- GLM.estimate_scale (source lines 260-308).  A falsy scaletype selects
the family default (1 for Binomial and Poisson, Pearson chi square
otherwise); a float is returned as the constant scale; the strings X2 and
dev select the Pearson and deviance based estimates; anything else raises
the scale-not-understood error. -/
def estimate_scale {n p : ℕ} (st : GLMState n p) (mu : Fin n → ℚ) :
    Except GLMError FVal :=
  if st.scaletype.falsy then
    if st.family.isBinomial || st.family.isPoisson then Except.ok (FVal.fin 1)
    else Except.ok (FVal.fin (pearsonScale st mu))
  else
    match st.scaletype with
    | ScaleType.float f => Except.ok (FVal.fin f)
    | ScaleType.str s =>
        if s.toLower = tokX2 then Except.ok (FVal.fin (pearsonScale st mu))
        else if s.toLower = tokDev then
          Except.ok ((st.family.devianceFun st.endog mu).divQ (st.df_resid : ℚ))
        else Except.error GLMError.scaleNotUnderstood
    | _ => Except.error GLMError.scaleNotUnderstood

/-- GLM._update_history (source lines 252-258): append the coefficient
vector, the fitted values and the deviance at the new mu to the three
history lists. -/
def updateHistory {n p : ℕ} (st : GLMState n p) (r : WLSResult n p)
    (mu : Fin n → ℚ) : GLMState n p :=
  { st with
      histParams := st.histParams ++ [PEntry.vec r.params]
      histFitted := st.histFitted ++ [r.fittedvalues]
      histDeviance := st.histDeviance ++ [st.family.devianceFun st.endog mu] }

/-- The while condition of the IRLS loop (source lines 394-396): the
absolute deviance difference between the entries at indices iteration and
iteration minus one exceeds tol, and the iteration counter is below
maxiter.  A NaN difference compares false, exactly as in numpy. -/
def irlsCond {n p : ℕ} (st : GLMState n p) (tol : ℚ) (maxiter : ℕ) : Bool :=
  (((st.histDeviance.getD st.iteration FVal.nan).sub
      (st.histDeviance.getD (st.iteration - 1) FVal.nan)).fabs.gtQ tol)
    && decide (st.iteration < maxiter)

/-- One body execution of the IRLS loop (source lines 397-405): compute the
weights, the working response, solve the weighted least squares problem,
update eta and mu, append to the history, estimate the scale (which can
raise) and advance the iteration counter.  The local variables mu, eta and
the solver result are threaded explicitly. -/
def irlsBody {n p : ℕ} (solver : WLSSolver n p) (dwArg : DW n)
    (st : GLMState n p) (mu eta : Fin n → ℚ) :
    GLMState n p × Except GLMError ((Fin n → ℚ) × (Fin n → ℚ) × WLSResult n p) :=
  let w := dwArg.mulVec (fun i => st.family.weightsFun (mu i))
  let st1 := { st with weights := Option.some w }
  let wlsendog := fun i => eta i + st1.family.linkDeriv (mu i) * (st1.endog.asVec i - mu i)
  let r := solver wlsendog st1.exog w
  let eta2 := fun i => ∑ j, st1.exog i j * r.params j
  let mu2 := fun i => st1.family.linkInv (eta2 i)
  let st2 := updateHistory st1 r mu2
  match estimate_scale st2 mu2 with
  | Except.error e => (st2, Except.error e)
  | Except.ok s =>
      ({ st2 with scale := Option.some s, iteration := st2.iteration + 1 },
        Except.ok (mu2, eta2, r))

/-- The IRLS while loop, run on explicit fuel.  fit passes maxiter as fuel;
since the loop condition requires iteration < maxiter and the body
increments iteration, the fuel never runs out before the condition turns
false, so this is exactly the source while loop. -/
def irlsLoop {n p : ℕ} (solver : WLSSolver n p) (dwArg : DW n) (maxiter : ℕ)
    (tol : ℚ) :
    ℕ → GLMState n p → (Fin n → ℚ) → (Fin n → ℚ) → Option (WLSResult n p) →
    GLMState n p × Except GLMError ((Fin n → ℚ) × Option (WLSResult n p))
  | 0, st, mu, _, wls => (st, Except.ok (mu, wls))
  | fuel + 1, st, mu, eta, wls =>
      if irlsCond st tol maxiter then
        match irlsBody solver dwArg st mu eta with
        | (st2, Except.error e) => (st2, Except.error e)
        | (st2, Except.ok (mu2, eta2, r)) =>
            irlsLoop solver dwArg maxiter tol fuel st2 mu2 eta2 (Option.some r)
      else (st, Except.ok (mu, wls))

/-- The pre-loop phase of GLM.fit (source lines 370-393): validate the
data_weights shape against the family, store and broadcast the weights,
store the scaletype, run the Binomial endog preprocessing, compute the
starting mu and eta, advance the iteration counter, compute the first
deviance, raise on NaN and otherwise append it to the history.  Returns
the mutated state together with the starting mu and eta, or the error that
aborted the call. -/
def fitPre {n p : ℕ} (st0 : GLMState n p) (data_weights : DW n)
    (scale : ScaleType) :
    GLMState n p × Except GLMError ((Fin n → ℚ) × (Fin n → ℚ)) :=
  if !data_weights.isScalar && !st0.family.isBinomial then
    (st0, Except.error GLMError.dataWeightsNonBinomial)
  else
    let st1 := { st0 with data_weights := data_weights }
    let st2 := { st1 with data_weights := st1.data_weights.broadcast }
    let st3 := { st2 with scaletype := scale }
    let st4 :=
      if st3.family.isBinomial then
        { st3 with endog := st3.family.initializeEndog st3.endog }
      else st3
    let mu := st4.family.starting_mu st4.endog
    let eta := fun i => st4.family.linkFun (mu i)
    let st5 := { st4 with iteration := st4.iteration + 1 }
    let dev := st5.family.devianceFun st5.endog mu
    if dev.isnan then (st5, Except.error GLMError.nanDeviance)
    else ({ st5 with histDeviance := st5.histDeviance ++ [dev] }, Except.ok (mu, eta))

/-- GLM.fit (source lines 343-409).  The method argument is accepted but,
as in the source, never inspected.  After the pre-loop phase and the IRLS
loop, store mu on the model and construct the results snapshot from the
solver output of the last executed loop body; when the loop body never
executed, the read of the local wls_results is unbound and the call fails,
mirroring the NameError of the source. -/
def fit {n p : ℕ} (solver : WLSSolver n p) (st0 : GLMState n p) (maxiter : ℕ)
    (method : String) (tol : ℚ) (data_weights : DW n) (scale : ScaleType) :
    GLMState n p × Except GLMError (GLMResultsSnap n p) :=
  match fitPre st0 data_weights scale with
  | (st, Except.error e) => (st, Except.error e)
  | (st, Except.ok (mu, eta)) =>
      match irlsLoop solver data_weights maxiter tol maxiter st mu eta Option.none with
      | (st2, Except.error e) => (st2, Except.error e)
      | (st2, Except.ok (muF, wlsOpt)) =>
          match wlsOpt, st2.scale with
          | Option.some r, Option.some s =>
              let res : GLMResultsSnap n p :=
                { params := r.params
                  normalized_cov_params := r.normalized_cov_params
                  scale := s
                  family := st2.family
                  endog := st2.endog
                  nobs := n
                  mu := muF
                  data_weights := st2.data_weights
                  df_resid := st2.df_resid
                  df_model := st2.df_model
                  pinv_wexog := st2.pinv_wexog }
              ({ st2 with mu := Option.some muF, results := Option.some res },
                Except.ok res)
          | _, _ =>
              ({ st2 with mu := Option.some muF },
                Except.error GLMError.unboundLocal)

/-- The linear or link-inverted prediction at given coefficients
(np.dot(exog, params), optionally through family.fitted). -/
def predictWith {n p m : ℕ} (st : GLMState n p) (exog : Fin m → Fin p → ℚ)
    (params : Fin p → ℚ) (linear : Bool) : Fin m → ℚ :=
  if linear then fun i => ∑ j, exog i j * params j
  else fun i => st.family.linkInv (∑ j, exog i j * params j)

/-- GLM.predict (source lines 310-341): without a stored results object and
without a params argument the call fails; when a results object is stored,
its params replace any caller supplied params; otherwise the supplied
params are used. -/
def predict {n p m : ℕ} (st : GLMState n p) (exog : Fin m → Fin p → ℚ)
    (params : Option (Fin p → ℚ)) (linear : Bool) :
    Except GLMError (Fin m → ℚ) :=
  match st.results, params with
  | Option.none, Option.none => Except.error GLMError.predictNoParams
  | Option.some res, _ => Except.ok (predictWith st exog res.params linear)
  | Option.none, Option.some q => Except.ok (predictWith st exog q linear)

end GLM

/-- Real valued embedding of the GLMResults diagnostics (source lines
539-628).  The snapshot is immutable; llf and devianceVal stand for the
values of the external family.loglike and family.deviance calls, and
varianceFun for the external family variance function applied elementwise.
The data weights are carried as a per observation vector (a scalar weight
broadcasts to the constant vector under the numpy arithmetic used here). -/
structure GLMResultsR (n : ℕ) : Type where
  endog : Fin n → ℝ
  mu : Fin n → ℝ
  data_weights : Fin n → ℝ
  varianceFun : ℝ → ℝ
  linkDeriv : ℝ → ℝ
  llf : ℝ
  devianceVal : ℝ
  df_model : ℝ
  df_resid : ℝ
  nobs : ℝ

namespace GLMResultsR

/-- resid_response (source lines 557-559): data_weights times endog minus
mu. -/
noncomputable def resid_response {n : ℕ} (r : GLMResultsR n) : Fin n → ℝ :=
  fun i => r.data_weights i * (r.endog i - r.mu i)

/-- resid_pearson (source lines 561-564): square root of the data weights
times the response residual over the square root of the variance at mu. -/
noncomputable def resid_pearson {n : ℕ} (r : GLMResultsR n) : Fin n → ℝ :=
  fun i => Real.sqrt (r.data_weights i) * (r.endog i - r.mu i) /
    Real.sqrt (r.varianceFun (r.mu i))

/-- pearson_chi2 (source lines 585-590): the weighted sum of squared
response residuals over the variance at mu. -/
noncomputable def pearson_chi2 {n : ℕ} (r : GLMResultsR n) : ℝ :=
  ∑ i, r.data_weights i * ((r.endog i - r.mu i) ^ 2 / r.varianceFun (r.mu i))

/-- aic (source lines 622-624). -/
noncomputable def aic {n : ℕ} (r : GLMResultsR n) : ℝ :=
  -2 * r.llf + 2 * (r.df_model + 1)

/-- bic (source lines 626-628). -/
noncomputable def bic {n : ℕ} (r : GLMResultsR n) : ℝ :=
  r.devianceVal - r.df_resid * Real.log r.nobs

end GLMResultsR

/-! Concrete instances used to evaluate the engine on explicit inputs:
a two observation, one regressor design, simple abstract families, a
constant external solver, and small projections of the fit output onto
decidable data. -/

/-- The default method string of fit. -/
def tokIRLS : String := "IRLS"

/-- An unsupported method string. -/
def tokNewton : String := "newton"

/-- The default tolerance of fit, 1e-8. -/
def tolEx : ℚ := 1 / 100000000

/-- An unreachably small tolerance. -/
def tolTiny : ℚ := 1 / 1000000000000000000000000000000

/-- A simple non Binomial, non Poisson family instance (identity link,
unit variance and weights, deviance identically zero). -/
def famEx : Family where
  isBinomial := false
  isPoisson := false
  initializeEndog := fun e => e
  starting_mu := fun e i => e.asVec i
  linkFun := fun x => x
  linkInv := fun x => x
  linkDeriv := fun _ => 1
  varianceFun := fun _ => 1
  devianceFun := fun _ _ => FVal.fin 0
  weightsFun := fun _ => 1

/-- A Binomial family instance: the Binomial flag is set and the endog
preprocessing is the spec modelled Binomial.initialize. -/
def famBin : Family :=
  { famEx with isBinomial := true, initializeEndog := binomialInitialize }

/-- A family whose deviance is identically plus infinity (not NaN), as a
Gamma like family produces on boundary data. -/
def famPinfDev : Family :=
  { famEx with devianceFun := fun _ _ => FVal.pinf }

/-- A two observation response vector. -/
def endogEx : Endog 2 := Endog.vec ![2, 4]

/-- A two observation Binomial response in successes and failures form. -/
def endogMatEx : Endog 2 := Endog.mat fun _ => (1, 3)

/-- A two by one constant design matrix. -/
def exogEx : Fin 2 → Fin 1 → ℚ := fun _ _ => 1

/-- The pseudoinverse of the constant design. -/
def pinvEx : Fin 1 → Fin 2 → ℚ := fun _ _ => 1 / 2

/-- A constant external WLS solver stub. -/
def solverEx : WLSSolver 2 1 := fun _ _ _ =>
  { params := fun _ => 3
    fittedvalues := fun _ => 3
    normalized_cov_params := fun _ _ => 1 }

/-- A freshly constructed model over the simple family. -/
def stGauss : GLMState 2 1 := GLM.make endogEx exogEx famEx pinvEx 1

/-- A freshly constructed model over the Binomial family instance. -/
def stBinom : GLMState 2 1 := GLM.make endogEx exogEx famBin pinvEx 1

/-- A freshly constructed Binomial model with matrix form endog. -/
def stBinMat : GLMState 2 1 := GLM.make endogMatEx exogEx famBin pinvEx 1

/-- A freshly constructed model whose first deviance is plus infinity. -/
def stPinf : GLMState 2 1 := GLM.make endogEx exogEx famPinfDev pinvEx 1

/-- The simple model with the float 0.0 stored as scaletype, as
fit(scale=0.0) stores it. -/
def stScale0 : GLMState 2 1 := { stGauss with scaletype := ScaleType.float 0 }

/-- The simple model with the float 2.0 stored as scaletype. -/
def stFloat2 : GLMState 2 1 := { stGauss with scaletype := ScaleType.float 2 }

/-- A concrete mean vector. -/
def muOne : Fin 2 → ℚ := fun _ => 1

/-- A concrete per observation data weights vector. -/
def wVecEx : Fin 2 → ℚ := fun _ => 2

/-- A concrete results snapshot, standing for the outcome of an earlier
fit, to be stored on a model as the results back reference. -/
def snapEx : GLMResultsSnap 2 1 where
  params := fun _ => 5
  normalized_cov_params := fun _ _ => 1
  scale := FVal.fin 1
  family := famEx
  endog := endogEx
  nobs := 2
  mu := fun _ => 3
  data_weights := DW.scalar 1
  df_resid := 1
  df_model := 0
  pinv_wexog := pinvEx

/-- The simple model carrying a stored results back reference, as a model
looks after a successful fit. -/
def stFit : GLMState 2 1 := { stGauss with results := Option.some snapEx }

/-- A caller supplied coefficient vector for predict. -/
def qEx : Fin 1 → ℚ := fun _ => 7

/-- Success projection of a fit outcome. -/
def fitOk {n p : ℕ} (x : GLMState n p × Except GLMError (GLMResultsSnap n p)) : Bool :=
  match x.2 with
  | Except.ok _ => true
  | Except.error _ => false

/-- Error projection of a fit outcome. -/
def fitErr {n p : ℕ} (x : GLMState n p × Except GLMError (GLMResultsSnap n p)) :
    Option GLMError :=
  match x.2 with
  | Except.ok _ => Option.none
  | Except.error e => Option.some e

/-- Scale projection of a fit outcome: the scale stored on the returned
results snapshot, when the fit succeeded. -/
def resScale {n p : ℕ} (x : GLMState n p × Except GLMError (GLMResultsSnap n p)) :
    Option FVal :=
  match x.2 with
  | Except.ok r => Option.some r.scale
  | Except.error _ => Option.none

/-- Value projection of an estimate_scale outcome. -/
def exVal (x : Except GLMError FVal) : Option FVal :=
  match x with
  | Except.ok v => Option.some v
  | Except.error _ => Option.none

/-- The real valued diagnostics snapshot used to instantiate the residual
identities on concrete data. -/
noncomputable def rEx : GLMResultsR 1 where
  endog := fun _ => 3
  mu := fun _ => 1
  data_weights := fun _ => 1
  varianceFun := fun _ => 1
  linkDeriv := fun _ => 1
  llf := 0
  devianceVal := 0
  df_model := 0
  df_resid := 1
  nobs := 1

/-! Helper lemmas about the engine. -/

theorem estimate_scale_err {n p : ℕ} (st : GLMState n p) (mu : Fin n → ℚ)
    (e : GLMError) (h : GLM.estimate_scale st mu = Except.error e) :
    e = GLMError.scaleNotUnderstood := by
  unfold GLM.estimate_scale at h
  repeat' split at h
  all_goals simp_all

theorem estimate_scale_binpois {n p : ℕ} (st : GLMState n p) (mu : Fin n → ℚ)
    (h1 : st.scaletype.falsy = true)
    (h2 : (st.family.isBinomial || st.family.isPoisson) = true) :
    GLM.estimate_scale st mu = Except.ok (FVal.fin 1) := by
  simp [GLM.estimate_scale, h1, h2]

theorem irlsBody_pres {n p : ℕ} (solver : WLSSolver n p) (dw : DW n)
    (st : GLMState n p) (mu eta : Fin n → ℚ) :
    (GLM.irlsBody solver dw st mu eta).1.endog = st.endog ∧
    (GLM.irlsBody solver dw st mu eta).1.exog = st.exog ∧
    (GLM.irlsBody solver dw st mu eta).1.family = st.family ∧
    (GLM.irlsBody solver dw st mu eta).1.scaletype = st.scaletype := by
  simp only [GLM.irlsBody, GLM.updateHistory]
  split <;> simp

theorem irlsBody_err {n p : ℕ} (solver : WLSSolver n p) (dw : DW n)
    (st : GLMState n p) (mu eta : Fin n → ℚ) (e : GLMError)
    (h : (GLM.irlsBody solver dw st mu eta).2 = Except.error e) :
    e = GLMError.scaleNotUnderstood := by
  simp only [GLM.irlsBody, GLM.updateHistory] at h
  split at h
  · rename_i e1 heq
    simp only at h
    cases h
    exact estimate_scale_err _ _ _ heq
  · simp at h

theorem irlsBody_binpois {n p : ℕ} (solver : WLSSolver n p) (dw : DW n)
    (st : GLMState n p) (mu eta : Fin n → ℚ)
    (h1 : st.scaletype.falsy = true)
    (h2 : (st.family.isBinomial || st.family.isPoisson) = true) :
    (GLM.irlsBody solver dw st mu eta).1.scale = Option.some (FVal.fin 1) := by
  simp only [GLM.irlsBody, GLM.updateHistory]
  rw [estimate_scale_binpois _ _ (by exact h1) (by exact h2)]

theorem irlsLoop_pres {n p : ℕ} (solver : WLSSolver n p) (dw : DW n)
    (maxiter : ℕ) (tol : ℚ) :
    ∀ (fuel : ℕ) (st : GLMState n p) (mu eta : Fin n → ℚ)
      (wls : Option (WLSResult n p)),
      (GLM.irlsLoop solver dw maxiter tol fuel st mu eta wls).1.endog = st.endog ∧
      (GLM.irlsLoop solver dw maxiter tol fuel st mu eta wls).1.exog = st.exog ∧
      (GLM.irlsLoop solver dw maxiter tol fuel st mu eta wls).1.family = st.family ∧
      (GLM.irlsLoop solver dw maxiter tol fuel st mu eta wls).1.scaletype = st.scaletype := by
  intro fuel
  induction fuel with
  | zero => intro st mu eta wls; exact ⟨rfl, rfl, rfl, rfl⟩
  | succ k ih =>
    intro st mu eta wls
    rw [GLM.irlsLoop]
    split
    · rcases hb : GLM.irlsBody solver dw st mu eta with ⟨st2, r2⟩
      have hp := irlsBody_pres solver dw st mu eta
      rw [hb] at hp
      cases r2 with
      | error e => exact ⟨hp.1, hp.2.1, hp.2.2.1, hp.2.2.2⟩
      | ok me =>
        rcases me with ⟨mu2, eta2, r⟩
        have ihh := ih st2 mu2 eta2 (Option.some r)
        exact ⟨ihh.1.trans hp.1, ihh.2.1.trans hp.2.1,
          ihh.2.2.1.trans hp.2.2.1, ihh.2.2.2.trans hp.2.2.2⟩
    · exact ⟨rfl, rfl, rfl, rfl⟩

theorem irlsLoop_err {n p : ℕ} (solver : WLSSolver n p) (dw : DW n)
    (maxiter : ℕ) (tol : ℚ) :
    ∀ (fuel : ℕ) (st : GLMState n p) (mu eta : Fin n → ℚ)
      (wls : Option (WLSResult n p)) (e : GLMError),
      (GLM.irlsLoop solver dw maxiter tol fuel st mu eta wls).2 = Except.error e →
      e = GLMError.scaleNotUnderstood := by
  intro fuel
  induction fuel with
  | zero => intro st mu eta wls e h; simp [GLM.irlsLoop] at h
  | succ k ih =>
    intro st mu eta wls e h
    rw [GLM.irlsLoop] at h
    split at h
    · rcases hb : GLM.irlsBody solver dw st mu eta with ⟨st2, r2⟩
      rw [hb] at h
      cases r2 with
      | error e1 =>
        have h3 : e1 = e := Except.error.inj h
        exact h3 ▸ irlsBody_err solver dw st mu eta e1 (congrArg Prod.snd hb)
      | ok me =>
        rcases me with ⟨mu2, eta2, r⟩
        exact ih st2 mu2 eta2 (Option.some r) e h
    · simp at h

theorem irlsLoop_scale_binpois {n p : ℕ} (solver : WLSSolver n p) (dw : DW n)
    (maxiter : ℕ) (tol : ℚ) :
    ∀ (fuel : ℕ) (st : GLMState n p) (mu eta : Fin n → ℚ)
      (wls : Option (WLSResult n p)),
      st.scaletype.falsy = true →
      (st.family.isBinomial || st.family.isPoisson) = true →
      (∀ r0, wls = Option.some r0 → st.scale = Option.some (FVal.fin 1)) →
      ∀ (muF : Fin n → ℚ) (r2 : WLSResult n p),
        (GLM.irlsLoop solver dw maxiter tol fuel st mu eta wls).2 =
          Except.ok (muF, Option.some r2) →
        (GLM.irlsLoop solver dw maxiter tol fuel st mu eta wls).1.scale =
          Option.some (FVal.fin 1) := by
  intro fuel
  induction fuel with
  | zero =>
    intro st mu eta wls hf hbp hw muF r2 h
    have h2 := Except.ok.inj h
    exact hw r2 (congrArg Prod.snd h2)
  | succ k ih =>
    intro st mu eta wls hf hbp hw muF r2 h
    rw [GLM.irlsLoop] at h ⊢
    split at h <;> rename_i hc
    · rw [if_pos hc]
      rcases hb : GLM.irlsBody solver dw st mu eta with ⟨st2, r2b⟩
      rw [hb] at h
      have hp := irlsBody_pres solver dw st mu eta
      rw [hb] at hp
      cases r2b with
      | error e1 => simp at h
      | ok me =>
        rcases me with ⟨mu2, eta2, r⟩
        have hsc := irlsBody_binpois solver dw st mu eta hf hbp
        rw [hb] at hsc
        exact ih st2 mu2 eta2 (Option.some r) (hp.2.2.2 ▸ hf) (hp.2.2.1 ▸ hbp)
          (fun r0 _ => hsc) muF r2 h
    · rw [if_neg hc]
      have h2 := Except.ok.inj h
      exact hw r2 (congrArg Prod.snd h2)

theorem fitPre_ok_fields {n p : ℕ} (st0 st1 : GLMState n p) (dw : DW n)
    (sc : ScaleType) (me : (Fin n → ℚ) × (Fin n → ℚ))
    (h : GLM.fitPre st0 dw sc = (st1, Except.ok me)) :
    st1.scaletype = sc ∧ st1.family = st0.family ∧ st1.exog = st0.exog ∧
    st1.iteration = st0.iteration + 1 ∧ st1.scale = st0.scale := by
  simp only [GLM.fitPre] at h
  split at h
  · simp at h
  · split at h
    all_goals split at h
    all_goals simp at h
    all_goals obtain ⟨h1, h2⟩ := h
    all_goals subst h1
    all_goals simp

theorem fitPre_endog_exog {n p : ℕ} (st0 : GLMState n p) (dw : DW n)
    (sc : ScaleType) :
    (GLM.fitPre st0 dw sc).1.exog = st0.exog ∧
    (st0.family.isBinomial = false → (GLM.fitPre st0 dw sc).1.endog = st0.endog) ∧
    (st0.family.isBinomial = true →
      (GLM.fitPre st0 dw sc).1.endog = st0.family.initializeEndog st0.endog) := by
  simp only [GLM.fitPre]
  cases hbin : st0.family.isBinomial <;>
    repeat' split <;> simp_all

theorem fitPre_err_dw {n p : ℕ} (st0 st1 : GLMState n p) (dw : DW n)
    (sc : ScaleType) (e : GLMError)
    (h : GLM.fitPre st0 dw sc = (st1, Except.error e))
    (he : e = GLMError.dataWeightsNonBinomial) :
    (!dw.isScalar && !st0.family.isBinomial) = true := by
  simp only [GLM.fitPre] at h
  split at h
  · assumption
  · split at h
    all_goals split at h
    all_goals simp_all

theorem fitPre_err_hist {n p : ℕ} (st0 st1 : GLMState n p) (dw : DW n)
    (sc : ScaleType) (e : GLMError)
    (h : GLM.fitPre st0 dw sc = (st1, Except.error e)) :
    st1.histDeviance = st0.histDeviance := by
  simp only [GLM.fitPre] at h
  split at h
  · simp at h
    obtain ⟨h1, h2⟩ := h
    subst h1
    rfl
  · split at h
    all_goals split at h
    all_goals simp at h
    all_goals obtain ⟨h1, h2⟩ := h
    all_goals subst h1
    all_goals simp

theorem fit_ok_structure {n p : ℕ} (solver : WLSSolver n p) (st : GLMState n p)
    (maxiter : ℕ) (method : String) (tol : ℚ) (dw : DW n) (sc : ScaleType)
    (stF : GLMState n p) (res : GLMResultsSnap n p)
    (h : GLM.fit solver st maxiter method tol dw sc = (stF, Except.ok res)) :
    ∃ st1 mu0 eta0 st2 muF r,
      GLM.fitPre st dw sc = (st1, Except.ok (mu0, eta0)) ∧
      GLM.irlsLoop solver dw maxiter tol maxiter st1 mu0 eta0 Option.none =
        (st2, Except.ok (muF, Option.some r)) ∧
      st2.scale = Option.some res.scale := by
  unfold GLM.fit at h
  split at h
  · simp at h
  · rename_i st1 mu0 eta0 heq1
    split at h
    · simp at h
    · rename_i st2 muF wlsOpt heq2
      split at h
      · rename_i r s heq4
        simp only [Prod.mk.injEq, Except.ok.injEq] at h
        obtain ⟨h1, h2⟩ := h
        have hs : res.scale = s := by rw [← h2]
        refine ⟨st1, mu0, eta0, st2, muF, r, heq1, heq2, ?_⟩
        rw [heq4, hs]
      · simp at h

/-- C1 (corrected): the method argument of GLM.fit is accepted but never
inspected; fit behaves identically for every method string, so an
unsupported method such as newton does not fail. -/
theorem C1_method_ignored {n p : ℕ} (solver : WLSSolver n p) (st : GLMState n p)
    (maxiter : ℕ) (m1 m2 : String) (tol : ℚ) (dw : DW n) (sc : ScaleType) :
    GLM.fit solver st maxiter m1 tol dw sc = GLM.fit solver st maxiter m2 tol dw sc :=
  rfl

/-- C1 counterexample: on a concrete model, fit called with the newton
method string succeeds and runs the IRLS loop (the iteration counter
advances past a loop body execution), instead of failing with an
unsupported method error. -/
theorem C1_counterexample :
    fitOk (GLM.fit solverEx stGauss 100 tokNewton tolEx (DW.scalar 1) ScaleType.none) = true ∧
    (GLM.fit solverEx stGauss 100 tokNewton tolEx (DW.scalar 1) ScaleType.none).1.iteration = 2 := by
  with_unfolding_all decide

/-- C2 (code bug): with maxiter = 1, an unreachably small tolerance and a
finite first deviance, the iteration counter already equals maxiter at the
first while check, so the loop body runs zero times and fit then fails
reading the unbound local wls_results, instead of iterating once and
returning a results snapshot. -/
theorem C2_maxiter_one_crashes :
    fitErr (GLM.fit solverEx stGauss 1 tokIRLS tolTiny (DW.scalar 1) ScaleType.none) =
      Option.some GLMError.unboundLocal ∧
    (GLM.fit solverEx stGauss 1 tokIRLS tolTiny (DW.scalar 1) ScaleType.none).1.iteration = 1 := by
  with_unfolding_all decide

/-- C3 (corrected): for a Binomial or Poisson family the returned scale of
a successful fit is exactly 1 whenever the scaletype argument is unset
(falsy); an explicit float or string scaletype overrides the family
default, so the original claim restricted to arbitrary scaletype fails. -/
theorem C3_scale_one_when_unset {n p : ℕ} (solver : WLSSolver n p)
    (st : GLMState n p) (maxiter : ℕ) (method : String) (tol : ℚ) (dw : DW n)
    (sc : ScaleType) (h1 : sc.falsy = true)
    (h2 : (st.family.isBinomial || st.family.isPoisson) = true)
    (h3 : fitOk (GLM.fit solver st maxiter method tol dw sc) = true) :
    resScale (GLM.fit solver st maxiter method tol dw sc) = Option.some (FVal.fin 1) := by
  rcases hfit : GLM.fit solver st maxiter method tol dw sc with ⟨stF, r2⟩
  rw [hfit] at h3
  cases r2 with
  | error e => simp [fitOk] at h3
  | ok res =>
    obtain ⟨st1, mu0, eta0, st2, muF, r, hpre, hloop, hscale⟩ :=
      fit_ok_structure solver st maxiter method tol dw sc stF res hfit
    have hf := fitPre_ok_fields st st1 dw sc (mu0, eta0) hpre
    have hsc := irlsLoop_scale_binpois solver dw maxiter tol maxiter st1 mu0 eta0
      Option.none (by rw [hf.1]; exact h1) (by rw [hf.2.1]; exact h2)
      (fun r0 h0 => Option.noConfusion h0) muF r (by rw [hloop])
    rw [hloop] at hsc
    rw [hsc] at hscale
    simp [resScale, hfit]
    exact (Option.some.inj hscale).symm

/-- C3 counterexample: a Binomial model fit with an explicit float
scaletype of 2 returns scale 2, not 1. -/
theorem C3_counterexample :
    resScale (GLM.fit solverEx stBinom 100 tokIRLS tolEx (DW.scalar 1) (ScaleType.float 2)) =
      Option.some (FVal.fin 2) ∧
    Option.some (FVal.fin 2) ≠ Option.some (FVal.fin 1) := by
  with_unfolding_all decide

/-- C3 witness: a concrete Binomial fit with unset scaletype does return
scale 1. -/
theorem C3_witness :
    ScaleType.none.falsy = true ∧
    (stBinom.family.isBinomial || stBinom.family.isPoisson) = true ∧
    fitOk (GLM.fit solverEx stBinom 100 tokIRLS tolEx (DW.scalar 1) ScaleType.none) = true ∧
    resScale (GLM.fit solverEx stBinom 100 tokIRLS tolEx (DW.scalar 1) ScaleType.none) =
      Option.some (FVal.fin 1) :=
  ⟨rfl, by with_unfolding_all decide, by with_unfolding_all decide,
    C3_scale_one_when_unset solverEx stBinom 100 tokIRLS tolEx (DW.scalar 1)
      ScaleType.none rfl (by with_unfolding_all decide) (by with_unfolding_all decide)⟩

/-- C4 (corrected): a nonzero float scaletype is returned by
estimate_scale as the constant scale, for every mu and every family; the
float 0.0 is falsy under the unset test of the source and therefore does
not reach the float branch, so the original claim fails at f = 0.0. -/
theorem C4_float_scale {n p : ℕ} (st : GLMState n p) (mu : Fin n → ℚ) (f : ℚ)
    (h1 : st.scaletype = ScaleType.float f) (h2 : ¬ f = 0) :
    GLM.estimate_scale st mu = Except.ok (FVal.fin f) := by
  simp [GLM.estimate_scale, h1, ScaleType.falsy, h2]

/-- C4 counterexample: with scaletype stored as the float 0.0 on a non
Binomial, non Poisson model, estimate_scale returns the Pearson estimate
(here 10), not the constant 0. -/
theorem C4_counterexample :
    exVal (GLM.estimate_scale stScale0 muOne) = Option.some (FVal.fin 10) ∧
    Option.some (FVal.fin 10) ≠ Option.some (FVal.fin 0) := by
  with_unfolding_all decide

/-- C4 witness: the float 2.0 scaletype is returned as the constant
scale. -/
theorem C4_witness :
    stFloat2.scaletype = ScaleType.float 2 ∧ ¬ (2 : ℚ) = 0 ∧
    GLM.estimate_scale stFloat2 muOne = Except.ok (FVal.fin 2) :=
  ⟨rfl, by with_unfolding_all decide,
    C4_float_scale stFloat2 muOne 2 rfl (by with_unfolding_all decide)⟩

/-- C5 (confirmed): aic and bic are the exact arithmetic identities over
the stored llf, df_model, deviance, df_resid and nobs of a results
snapshot. -/
theorem C5_aic_bic {n : ℕ} (r : GLMResultsR n) :
    r.aic = -2 * r.llf + 2 * (r.df_model + 1) ∧
    r.bic = r.devianceVal - r.df_resid * Real.log r.nobs :=
  ⟨rfl, rfl⟩

/-- C6 (confirmed): resid_response is data_weights times endog minus mu
elementwise, and the sum of squared Pearson residuals equals
pearson_chi2, given nonnegative data weights and variance values. -/
theorem C6_residual_identities {n : ℕ} (r : GLMResultsR n)
    (hdw : ∀ i, 0 ≤ r.data_weights i)
    (hvar : ∀ i, 0 ≤ r.varianceFun (r.mu i)) :
    r.resid_response = (fun i => r.data_weights i * (r.endog i - r.mu i)) ∧
    ∑ i, r.resid_pearson i ^ 2 = r.pearson_chi2 := by
  refine ⟨rfl, ?_⟩
  unfold GLMResultsR.resid_pearson GLMResultsR.pearson_chi2
  refine Finset.sum_congr rfl fun i _ => ?_
  rw [div_pow, mul_pow, Real.sq_sqrt (hdw i), Real.sq_sqrt (hvar i), mul_div_assoc]

/-- C6 witness: the residual identities instantiated on a concrete
snapshot. -/
theorem C6_witness :
    (∀ i : Fin 1, 0 ≤ rEx.data_weights i) ∧
    (∀ i : Fin 1, 0 ≤ rEx.varianceFun (rEx.mu i)) ∧
    ∑ i, rEx.resid_pearson i ^ 2 = rEx.pearson_chi2 := by
  have h1 : ∀ i : Fin 1, (0 : ℝ) ≤ rEx.data_weights i := fun i => by
    simp [rEx]
  have h2 : ∀ i : Fin 1, (0 : ℝ) ≤ rEx.varianceFun (rEx.mu i) := fun i => by
    simp [rEx]
  exact ⟨h1, h2, (C6_residual_identities rEx h1 h2).2⟩

/-- C7 (corrected): initialize seeds the history with the +inf sentinels
at iteration 0, and after the pre loop phase appends a finite first
deviance, so the first while check compares a finite value against +inf
and succeeds whenever maxiter exceeds 1; a non NaN but infinite first
deviance instead makes the check compare +inf against +inf, which is NaN
and false, so the original claim stated for all non NaN deviances fails. -/
theorem C7_seed_and_loop_entry {n p : ℕ} :
    (∀ (pinvExog : Fin p → Fin n → ℚ) (rankExog : ℕ) (st : GLMState n p),
      (GLM.initializeModel pinvExog rankExog st).histDeviance = [FVal.pinf] ∧
      (GLM.initializeModel pinvExog rankExog st).histParams = [PEntry.inf] ∧
      (GLM.initializeModel pinvExog rankExog st).iteration = 0) ∧
    (∀ (st0 : GLMState n p) (dw : DW n) (sc : ScaleType) (d tol : ℚ) (maxiter : ℕ),
      1 < maxiter → st0.iteration = 0 → st0.histDeviance = [FVal.pinf] →
      (GLM.fitPre st0 dw sc).1.histDeviance = [FVal.pinf, FVal.fin d] →
      GLM.irlsCond (GLM.fitPre st0 dw sc).1 tol maxiter = true) := by
  constructor
  · intro pv rk st
    exact ⟨rfl, rfl, rfl⟩
  · intro st0 dw sc d tol maxiter hmax hit h0 hpost
    rcases hpre : GLM.fitPre st0 dw sc with ⟨st1, r1⟩
    rw [hpre] at hpost
    have hpost1 : st1.histDeviance = [FVal.pinf, FVal.fin d] := hpost
    show GLM.irlsCond st1 tol maxiter = true
    cases r1 with
    | error e =>
      have hh := fitPre_err_hist st0 st1 dw sc e hpre
      rw [hh, h0] at hpost1
      simp at hpost1
    | ok me =>
      have hf := fitPre_ok_fields st0 st1 dw sc me hpre
      have hit1 : st1.iteration = 1 := by rw [hf.2.2.2.1, hit]
      simp [GLM.irlsCond, hit1, hpost1, List.getD_cons_succ, List.getD_cons_zero,
        FVal.sub, FVal.fabs, FVal.gtQ, hmax]

/-- C7 counterexample: a family whose first deviance is +inf (not NaN)
passes the NaN guard, yet the first while check fails (inf minus inf is
NaN), so the loop body is never entered although maxiter is 2: the
iteration counter stays at 1 and fit dies on the unbound solver local. -/
theorem C7_counterexample :
    (famPinfDev.devianceFun stPinf.endog (famPinfDev.starting_mu stPinf.endog)).isnan = false ∧
    (GLM.fit solverEx stPinf 2 tokIRLS tolEx (DW.scalar 1) ScaleType.none).1.iteration = 1 ∧
    fitErr (GLM.fit solverEx stPinf 2 tokIRLS tolEx (DW.scalar 1) ScaleType.none) =
      Option.some GLMError.unboundLocal := by
  with_unfolding_all decide

/-- C7 witness: on a concrete model with finite first deviance the first
while check succeeds. -/
theorem C7_witness :
    1 < 100 ∧ stGauss.iteration = 0 ∧ stGauss.histDeviance = [FVal.pinf] ∧
    (GLM.fitPre stGauss (DW.scalar 1) ScaleType.none).1.histDeviance =
      [FVal.pinf, FVal.fin 0] ∧
    GLM.irlsCond (GLM.fitPre stGauss (DW.scalar 1) ScaleType.none).1 tolEx 100 = true :=
  ⟨by decide, rfl, rfl, by with_unfolding_all decide,
    C7_seed_and_loop_entry.2 stGauss (DW.scalar 1) ScaleType.none 0 tolEx 100
      (by decide) rfl rfl (by with_unfolding_all decide)⟩

/-- C8 (confirmed): a non scalar data_weights argument with a non Binomial
family makes fit fail immediately with the data weights error and the
model state unchanged; with a Binomial family the data weights error is
never raised. -/
theorem C8_data_weights_validation {n p : ℕ} :
    (∀ (solver : WLSSolver n p) (st : GLMState n p) (maxiter : ℕ)
       (method : String) (tol : ℚ) (w : Fin n → ℚ) (sc : ScaleType),
       st.family.isBinomial = false →
       GLM.fit solver st maxiter method tol (DW.vector w) sc =
         (st, Except.error GLMError.dataWeightsNonBinomial)) ∧
    (∀ (solver : WLSSolver n p) (st : GLMState n p) (maxiter : ℕ)
       (method : String) (tol : ℚ) (dw : DW n) (sc : ScaleType),
       st.family.isBinomial = true →
       (GLM.fit solver st maxiter method tol dw sc).2 ≠
         Except.error GLMError.dataWeightsNonBinomial) := by
  constructor
  · intro solver st maxiter method tol w sc hbin
    have hpre : GLM.fitPre st (DW.vector w) sc =
        (st, Except.error GLMError.dataWeightsNonBinomial) := by
      simp [GLM.fitPre, DW.isScalar, hbin]
    simp [GLM.fit, hpre]
  · intro solver st maxiter method tol dw sc hbin h
    unfold GLM.fit at h
    split at h
    · rename_i st1 e heq
      have he : e = GLMError.dataWeightsNonBinomial := Except.error.inj h
      have hg := fitPre_err_dw st st1 dw sc e heq he
      rw [hbin] at hg
      simp at hg
    · rename_i st1 mu0 eta0 heq1
      split at h
      · rename_i st2 e2 heq2
        have he2 : e2 = GLMError.dataWeightsNonBinomial := Except.error.inj h
        have := irlsLoop_err solver dw maxiter tol maxiter st1 mu0 eta0
          Option.none e2 (by rw [heq2])
        rw [he2] at this
        exact GLMError.noConfusion this
      · rename_i st2 muF wlsOpt heq2
        split at h
        · simp at h
        · exact GLMError.noConfusion (Except.error.inj h)

/-- C8 witness: the validation at concrete models of each family kind. -/
theorem C8_witness :
    stGauss.family.isBinomial = false ∧
    GLM.fit solverEx stGauss 5 tokIRLS tolEx (DW.vector wVecEx) ScaleType.none =
      (stGauss, Except.error GLMError.dataWeightsNonBinomial) ∧
    stBinom.family.isBinomial = true ∧
    (GLM.fit solverEx stBinom 5 tokIRLS tolEx (DW.vector wVecEx) ScaleType.none).2 ≠
      Except.error GLMError.dataWeightsNonBinomial :=
  ⟨rfl,
    C8_data_weights_validation.1 solverEx stGauss 5 tokIRLS tolEx wVecEx ScaleType.none rfl,
    rfl,
    C8_data_weights_validation.2 solverEx stBinom 5 tokIRLS tolEx
      (DW.vector wVecEx) ScaleType.none rfl⟩

/-- C9 (corrected): fit never changes exog, and never changes endog for a
non Binomial family; for a Binomial family fit reassigns endog to the
result of the Binomial initialize preprocessing, which collapses a two
column successes and failures endog to a proportion vector, so the
original unconditional immutability claim fails. -/
theorem C9_fit_preserves_data {n p : ℕ} (solver : WLSSolver n p)
    (st : GLMState n p) (maxiter : ℕ) (method : String) (tol : ℚ) (dw : DW n)
    (sc : ScaleType) :
    (GLM.fit solver st maxiter method tol dw sc).1.exog = st.exog ∧
    (st.family.isBinomial = false →
      (GLM.fit solver st maxiter method tol dw sc).1.endog = st.endog) ∧
    (st.family.isBinomial = true →
      (GLM.fit solver st maxiter method tol dw sc).1.endog =
        st.family.initializeEndog st.endog) := by
  have hpe := fitPre_endog_exog st dw sc
  rcases hpre : GLM.fitPre st dw sc with ⟨st1, r1⟩
  rw [hpre] at hpe
  cases r1 with
  | error e =>
    simp only [GLM.fit, hpre]
    exact hpe
  | ok me =>
    rcases me with ⟨mu0, eta0⟩
    have hlp := irlsLoop_pres solver dw maxiter tol maxiter st1 mu0 eta0 Option.none
    rcases hloop : GLM.irlsLoop solver dw maxiter tol maxiter st1 mu0 eta0
      Option.none with ⟨st2, r2⟩
    rw [hloop] at hlp
    cases r2 with
    | error e =>
      simp only [GLM.fit, hpre, hloop]
      exact ⟨hlp.2.1.trans hpe.1, fun hb => hlp.1.trans (hpe.2.1 hb),
        fun hb => hlp.1.trans (hpe.2.2 hb)⟩
    | ok me2 =>
      rcases me2 with ⟨muF, wlsOpt⟩
      simp only [GLM.fit, hpre, hloop]
      split
      all_goals exact ⟨hlp.2.1.trans hpe.1, fun hb => hlp.1.trans (hpe.2.1 hb),
        fun hb => hlp.1.trans (hpe.2.2 hb)⟩

/-- C9 counterexample: a successful Binomial fit on matrix form endog
leaves the model with vector form endog, so the data observable through
the endog field changed. -/
theorem C9_counterexample :
    stBinMat.endog.isMat = true ∧
    (GLM.fit solverEx stBinMat 100 tokIRLS tolEx (DW.scalar 1) ScaleType.none).1.endog.isMat = false ∧
    fitOk (GLM.fit solverEx stBinMat 100 tokIRLS tolEx (DW.scalar 1) ScaleType.none) = true := by
  with_unfolding_all decide

/-- C9 witness: on a concrete non Binomial model the data is preserved. -/
theorem C9_witness :
    stGauss.family.isBinomial = false ∧
    (GLM.fit solverEx stGauss 3 tokIRLS tolEx (DW.scalar 1) ScaleType.none).1.endog =
      stGauss.endog :=
  ⟨rfl,
    (C9_fit_preserves_data solverEx stGauss 3 tokIRLS tolEx (DW.scalar 1)
      ScaleType.none).2.1 rfl⟩

/-- C10 (confirmed): once a results object is stored on the model, predict
replaces any caller supplied params with the stored converged params; the
supplied params only take effect when the model has no stored results. -/
theorem C10_predict_uses_stored {n p m : ℕ} :
    (∀ (st : GLMState n p) (exog : Fin m → Fin p → ℚ) (q : Fin p → ℚ)
       (res : GLMResultsSnap n p) (linear : Bool),
       st.results = Option.some res →
       GLM.predict st exog (Option.some q) linear =
         GLM.predict st exog Option.none linear ∧
       GLM.predict st exog (Option.some q) linear =
         Except.ok (GLM.predictWith st exog res.params linear)) ∧
    (∀ (st : GLMState n p) (exog : Fin m → Fin p → ℚ) (q : Fin p → ℚ)
       (linear : Bool),
       st.results = Option.none →
       GLM.predict st exog (Option.some q) linear =
         Except.ok (GLM.predictWith st exog q linear)) := by
  constructor
  · intro st exog q res linear h
    unfold GLM.predict
    rw [h]
    exact ⟨rfl, rfl⟩
  · intro st exog q linear h
    unfold GLM.predict
    rw [h]

/-- C10 witness: on a model with a stored results object the supplied
params are ignored. -/
theorem C10_witness :
    stFit.results = Option.some snapEx ∧
    GLM.predict stFit exogEx (Option.some qEx) false =
      GLM.predict stFit exogEx Option.none false :=
  ⟨rfl, (C10_predict_uses_stored.1 stFit exogEx qEx snapEx false rfl).1⟩

end GLMSpec
